import Mathlib

/-!
Verification of the serper SDK (a Rust client library for a web-search API)
against its natural-language specification.

The development shallowly embeds the relevant Rust code:
pure functions become Lean functions, fallible functions return `Except`,
and effectful collaborators (the HTTP transport, the process environment)
are passed in explicitly as values or functions.
-/

/-! ## String utilities modelling the Rust standard library -/

/-- Models Rust `char::is_whitespace`: membership in the Unicode
White_Space set, listed by code point. -/
def rustIsWhitespace (c : Char) : Bool :=
  (0x09 ≤ c.toNat && c.toNat ≤ 0x0D) || c.toNat == 0x20 || c.toNat == 0x85 ||
  c.toNat == 0xA0 || c.toNat == 0x1680 ||
  (0x2000 ≤ c.toNat && c.toNat ≤ 0x200A) || c.toNat == 0x2028 ||
  c.toNat == 0x2029 || c.toNat == 0x202F || c.toNat == 0x205F ||
  c.toNat == 0x3000

/-- Models Rust `str::trim`: removes leading and trailing whitespace. -/
def rustTrim (s : String) : String :=
  String.mk (((s.data.dropWhile rustIsWhitespace).reverse.dropWhile
    rustIsWhitespace).reverse)

/-- Models Rust `str::to_lowercase` for the strings this SDK compares
(character-wise lowercasing; no character relevant to the comparison
with "true" has a multi-character or non-ASCII lowercase form). -/
def rustToLowercase (s : String) : String :=
  String.mk (s.data.map Char.toLower)

/-- Models Rust `u64::from_str` (also used for `usize` on the 64-bit
targets this crate builds for): an optional leading plus sign, then one
or more ASCII digits, rejecting overflow past `2^64 - 1`. -/
def parseRustU64 (s : String) : Option Nat :=
  let cs := match s.data with
    | '+' :: rest => rest
    | cs => cs
  if cs.isEmpty then none
  else if cs.all Char.isDigit then
    let n := cs.foldl (fun a c => a * 10 + (c.toNat - 48)) 0
    if n < 2 ^ 64 then some n else none
  else none

/-! ## JSON values

A model of `serde_json::Value`; numbers are modelled as rationals (no
claim in this development depends on floating-point rounding). -/

inductive Json where
  | null : Json
  | bool (b : Bool) : Json
  | num (q : Rat) : Json
  | str (s : String) : Json
  | arr (xs : List Json) : Json
  | obj (fields : List (String × Json)) : Json

/-! ## The error type (src/core/error.rs, `SerperError`)

The `Request` and `Json` payloads wrap external library errors; they are
modelled by their rendered messages. -/

inductive SerperError where
  | Request (msg : String) : SerperError
  | Json (msg : String) : SerperError
  | Api (message : String) : SerperError
  | InvalidApiKey : SerperError
  | Config (message : String) : SerperError
  | Validation (message : String) : SerperError
deriving Repr, DecidableEq

namespace SerperError

/-- `SerperError::api_error` -/
def api_error (message : String) : SerperError := .Api message

/-- `SerperError::config_error` -/
def config_error (message : String) : SerperError := .Config message

/-- `SerperError::validation_error` -/
def validation_error (message : String) : SerperError := .Validation message

end SerperError

/-! ## SearchQuery (src/search/query.rs) -/

/-- The outbound search request. `u32` fields are modelled as `Nat`
(no claim depends on 32-bit overflow). -/
structure SearchQuery where
  q : String
  location : Option String
  gl : Option String
  hl : Option String
  page : Option Nat
  num : Option Nat
deriving Repr, DecidableEq

namespace SearchQuery

/-- `SearchQuery::new`: rejects a query string that is empty after
trimming, otherwise stores the untrimmed string with all optional
fields unset. -/
def new (query : String) : Except SerperError SearchQuery :=
  if (rustTrim query).isEmpty then
    .error (SerperError.validation_error ("Query string cannot be empty"))
  else
    .ok { q := query, location := none, gl := none, hl := none,
          page := none, num := none }

/-- `SearchQuery::validate`: query non-empty after trim; `page`, when
present, non-zero; `num`, when present, in 1..=100. The
`if let Some(x) = f && cond` guards are modelled with `Option.any`. -/
def validate (self : SearchQuery) : Except SerperError Unit :=
  if (rustTrim self.q).isEmpty then
    .error (SerperError.validation_error ("Query string cannot be empty"))
  else if self.page.any (fun page => page == 0) then
    .error (SerperError.validation_error ("Page number must be greater than 0"))
  else if self.num.any (fun num => num == 0 || num > 100) then
    .error (SerperError.validation_error
      ("Number of results must be between 1 and 100"))
  else
    .ok ()

end SearchQuery

/-- Models the derived `serde::Serialize` instance of `SearchQuery`:
fields in declaration order, each optional field carrying
`skip_serializing_if = "Option::is_none"`, so a `None` field emits no
key at all. -/
def serializeSearchQuery (self : SearchQuery) : List (String × Json) :=
  [(("q" : String), Json.str self.q)]
  ++ (match self.location with
      | some v => [(("location" : String), Json.str v)]
      | none => [])
  ++ (match self.gl with
      | some v => [(("gl" : String), Json.str v)]
      | none => [])
  ++ (match self.hl with
      | some v => [(("hl" : String), Json.str v)]
      | none => [])
  ++ (match self.page with
      | some v => [(("page" : String), Json.num v)]
      | none => [])
  ++ (match self.num with
      | some v => [(("num" : String), Json.num v)]
      | none => [])

/-! ## SearchResponse and sub-structures (src/search/response.rs) -/

/-- `SearchMetadata`. The two `f64` timing fields are modelled as
rationals; no claim depends on float arithmetic. -/
structure SearchMetadata where
  id : String
  status : String
  created_at : String
  request_time_taken : Rat
  total_time_taken : Rat

/-- `OrganicResult`; `extra` models the `serde(flatten)` map of
unrecognized fields. -/
structure OrganicResult where
  title : String
  link : String
  snippet : Option String
  position : Nat
  extra : List (String × Json)

/-- `AnswerBox` -/
structure AnswerBox where
  answer : Option String
  snippet : Option String
  title : Option String
  link : Option String

/-- `KnowledgeGraph`; `attributes` models the `serde(flatten)` map. -/
structure KnowledgeGraph where
  title : Option String
  description : Option String
  entity_type : Option String
  website : Option String
  attributes : List (String × Json)

/-- `RelatedQuestion` -/
structure RelatedQuestion where
  question : String
  snippet : Option String
  title : Option String
  link : Option String

/-- `ShoppingResult` -/
structure ShoppingResult where
  title : String
  link : String
  price : Option String
  source : Option String
  image : Option String
  position : Nat

/-- `NewsResult` -/
structure NewsResult where
  title : String
  link : String
  snippet : Option String
  source : Option String
  date : Option String
  position : Nat

/-- `SearchResponse`: every top-level section independently optional. -/
structure SearchResponse where
  search_metadata : Option SearchMetadata
  organic : Option (List OrganicResult)
  answer_box : Option AnswerBox
  knowledge_graph : Option KnowledgeGraph
  related_questions : Option (List RelatedQuestion)
  shopping : Option (List ShoppingResult)
  news : Option (List NewsResult)

namespace SearchResponse

/-- `SearchResponse::new` -/
def new : SearchResponse :=
  { search_metadata := none, organic := none, answer_box := none,
    knowledge_graph := none, related_questions := none, shopping := none,
    news := none }

/-- `SearchResponse::has_results`: `is_some_and(|v| !v.is_empty())` on
the list sections, `is_some()` on the answer box and knowledge graph;
`related_questions` is not consulted. -/
def has_results (self : SearchResponse) : Bool :=
  self.organic.any (fun o => !o.isEmpty) ||
  self.answer_box.isSome ||
  self.knowledge_graph.isSome ||
  self.shopping.any (fun s => !s.isEmpty) ||
  self.news.any (fun n => !n.isEmpty)

/-- `SearchResponse::organic_count` -/
def organic_count (self : SearchResponse) : Nat :=
  (self.organic.map List.length).getD 0

end SearchResponse

/-! ## ResponseParser::validate_response (src/search/response.rs) -/

/-- The indexed `for (idx, result) in organic.iter().enumerate()` loop
of `validate_response`, started at index `idx`. -/
def validateOrganicFrom : Nat → List OrganicResult → Except SerperError Unit
  | _, [] => .ok ()
  | idx, result :: rest =>
    if result.title.isEmpty then
      .error (SerperError.validation_error
        (("Organic result " ++ toString idx ++ " has empty title")))
    else if result.link.isEmpty then
      .error (SerperError.validation_error
        (("Organic result " ++ toString idx ++ " has empty link")))
    else
      validateOrganicFrom (idx + 1) rest

namespace ResponseParser

/-- `ResponseParser::validate_response`: rejects an empty metadata id
(when metadata is present), then rejects any organic result with an
empty title or empty link. -/
def validate_response (response : SearchResponse) : Except SerperError Unit :=
  match response.search_metadata with
  | some metadata =>
    if metadata.id.isEmpty then
      .error (SerperError.validation_error ("Response metadata has empty ID"))
    else
      match response.organic with
      | some organic => validateOrganicFrom 0 organic
      | none => .ok ()
  | none =>
    match response.organic with
    | some organic => validateOrganicFrom 0 organic
    | none => .ok ()

end ResponseParser

/-! ## The derived serde deserializers (src/search/response.rs)

Models the `#[derive(Deserialize)]` instances: a struct deserializes
from a JSON object; a missing or null key for an `Option` field yields
`none`; a missing key for a required field is an error; unknown keys
are ignored except where captured by a `serde(flatten)` map. -/

/-- Field lookup in a JSON object model (first match wins). -/
def jLookup (fields : List (String × Json)) (key : String) : Option Json :=
  (fields.find? (fun p => p.1 == key)).map (fun p => p.2)

/-- Deserializing a `String`. -/
def jString : Json → Except String String
  | .str s => .ok s
  | _ => .error ("invalid type: expected a string")

/-- Deserializing a `u32`: an integral JSON number in range. -/
def jU32 : Json → Except String Nat
  | .num q =>
    if q.den = 1 ∧ 0 ≤ q.num ∧ q.num < 4294967296 then .ok q.num.toNat
    else .error ("invalid value: expected u32")
  | _ => .error ("invalid type: expected u32")

/-- Deserializing an `f64` (modelled as the rational carried by the
JSON number). -/
def jF64 : Json → Except String Rat
  | .num q => .ok q
  | _ => .error ("invalid type: expected f64")

/-- Deserializing an `Option<T>` field: missing or null is `None`. -/
def jFieldOpt (fields : List (String × Json)) (key : String)
    (p : Json → Except String α) : Except String (Option α) :=
  match jLookup fields key with
  | none => .ok none
  | some Json.null => .ok none
  | some v => do
    let x ← p v
    .ok (some x)

/-- Deserializing a required field: missing is an error. -/
def jFieldReq (fields : List (String × Json)) (key : String)
    (p : Json → Except String α) : Except String α :=
  match jLookup fields key with
  | none => .error (("missing field " ++ key))
  | some v => p v

/-- Deserializing a `Vec<T>`. -/
def jArray (p : Json → Except String α) : Json → Except String (List α)
  | .arr xs => xs.mapM p
  | _ => .error ("invalid type: expected a sequence")

/-- Deserializer of `SearchMetadata`. -/
def parseSearchMetadata : Json → Except String SearchMetadata
  | .obj fields => do
    let id ← jFieldReq fields ("id") jString
    let status ← jFieldReq fields ("status") jString
    let created_at ← jFieldReq fields ("created_at") jString
    let request_time_taken ← jFieldReq fields ("request_time_taken") jF64
    let total_time_taken ← jFieldReq fields ("total_time_taken") jF64
    .ok { id := id, status := status, created_at := created_at,
          request_time_taken := request_time_taken,
          total_time_taken := total_time_taken }
  | _ => .error ("invalid type: expected a map")

/-- Deserializer of `OrganicResult`; keys not named by a declared field
land in the flattened `extra` map. -/
def parseOrganicResult : Json → Except String OrganicResult
  | .obj fields => do
    let title ← jFieldReq fields ("title") jString
    let link ← jFieldReq fields ("link") jString
    let snippet ← jFieldOpt fields ("snippet") jString
    let position ← jFieldReq fields ("position") jU32
    .ok { title := title, link := link, snippet := snippet,
          position := position,
          extra := fields.filter (fun p =>
            !(([("title" : String), ("link" : String), ("snippet" : String),
               ("position" : String)]).contains p.1)) }
  | _ => .error ("invalid type: expected a map")

/-- Deserializer of `AnswerBox`. -/
def parseAnswerBox : Json → Except String AnswerBox
  | .obj fields => do
    let answer ← jFieldOpt fields ("answer") jString
    let snippet ← jFieldOpt fields ("snippet") jString
    let title ← jFieldOpt fields ("title") jString
    let link ← jFieldOpt fields ("link") jString
    .ok { answer := answer, snippet := snippet, title := title, link := link }
  | _ => .error ("invalid type: expected a map")

/-- Deserializer of `KnowledgeGraph`; the `entity_type` field is
renamed to key "type", and `attributes` is flattened. -/
def parseKnowledgeGraph : Json → Except String KnowledgeGraph
  | .obj fields => do
    let title ← jFieldOpt fields ("title") jString
    let description ← jFieldOpt fields ("description") jString
    let entity_type ← jFieldOpt fields ("type") jString
    let website ← jFieldOpt fields ("website") jString
    .ok { title := title, description := description,
          entity_type := entity_type, website := website,
          attributes := fields.filter (fun p =>
            !(([("title" : String), ("description" : String),
               ("type" : String), ("website" : String)]).contains p.1)) }
  | _ => .error ("invalid type: expected a map")

/-- Deserializer of `RelatedQuestion`. -/
def parseRelatedQuestion : Json → Except String RelatedQuestion
  | .obj fields => do
    let question ← jFieldReq fields ("question") jString
    let snippet ← jFieldOpt fields ("snippet") jString
    let title ← jFieldOpt fields ("title") jString
    let link ← jFieldOpt fields ("link") jString
    .ok { question := question, snippet := snippet, title := title,
          link := link }
  | _ => .error ("invalid type: expected a map")

/-- Deserializer of `ShoppingResult`. -/
def parseShoppingResult : Json → Except String ShoppingResult
  | .obj fields => do
    let title ← jFieldReq fields ("title") jString
    let link ← jFieldReq fields ("link") jString
    let price ← jFieldOpt fields ("price") jString
    let source ← jFieldOpt fields ("source") jString
    let image ← jFieldOpt fields ("image") jString
    let position ← jFieldReq fields ("position") jU32
    .ok { title := title, link := link, price := price, source := source,
          image := image, position := position }
  | _ => .error ("invalid type: expected a map")

/-- Deserializer of `NewsResult`. -/
def parseNewsResult : Json → Except String NewsResult
  | .obj fields => do
    let title ← jFieldReq fields ("title") jString
    let link ← jFieldReq fields ("link") jString
    let snippet ← jFieldOpt fields ("snippet") jString
    let source ← jFieldOpt fields ("source") jString
    let date ← jFieldOpt fields ("date") jString
    let position ← jFieldReq fields ("position") jU32
    .ok { title := title, link := link, snippet := snippet,
          source := source, date := date, position := position }
  | _ => .error ("invalid type: expected a map")

/-- Deserializer of `SearchResponse`: each section is an `Option`
field, so an absent key yields `none`. -/
def deserializeSearchResponse : Json → Except String SearchResponse
  | .obj fields => do
    let search_metadata ← jFieldOpt fields ("search_metadata") parseSearchMetadata
    let organic ← jFieldOpt fields ("organic") (jArray parseOrganicResult)
    let answer_box ← jFieldOpt fields ("answer_box") parseAnswerBox
    let knowledge_graph ← jFieldOpt fields ("knowledge_graph") parseKnowledgeGraph
    let related_questions ← jFieldOpt fields ("related_questions")
      (jArray parseRelatedQuestion)
    let shopping ← jFieldOpt fields ("shopping") (jArray parseShoppingResult)
    let news ← jFieldOpt fields ("news") (jArray parseNewsResult)
    .ok { search_metadata := search_metadata, organic := organic,
          answer_box := answer_box, knowledge_graph := knowledge_graph,
          related_questions := related_questions, shopping := shopping,
          news := news }
  | _ => .error ("invalid type: expected a map")

/-! ## HTTP transport (src/http/transport.rs)

The network send itself is an external collaborator; `post_json` is
modelled from the point where a wire response has been received: given
the received response, it is passed through on a success status and
mapped to an API error otherwise. -/

/-- A received HTTP response: status code plus (already parsed) body.
Request building, the header set and the actual send are effectful
I/O on the reqwest collaborator and are outside the model. -/
structure RawResponse where
  status : Nat
  body : Json

/-- Models `http::StatusCode::is_success`: the 2xx range. -/
def statusIsSuccess (status : Nat) : Bool :=
  200 ≤ status && status < 300

/-- Models the external `http` crate's `StatusCode::canonical_reason`
table for the status classes this SDK can meet; codes outside the
table have no canonical reason. -/
def canonicalReason (status : Nat) : Option String :=
  match status with
  | 200 => some ("OK")
  | 201 => some ("Created")
  | 204 => some ("No Content")
  | 301 => some ("Moved Permanently")
  | 302 => some ("Found")
  | 304 => some ("Not Modified")
  | 400 => some ("Bad Request")
  | 401 => some ("Unauthorized")
  | 403 => some ("Forbidden")
  | 404 => some ("Not Found")
  | 405 => some ("Method Not Allowed")
  | 408 => some ("Request Timeout")
  | 429 => some ("Too Many Requests")
  | 500 => some ("Internal Server Error")
  | 501 => some ("Not Implemented")
  | 502 => some ("Bad Gateway")
  | 503 => some ("Service Unavailable")
  | 504 => some ("Gateway Timeout")
  | _ => none

/-- Models the `Display` rendering of `http::StatusCode`: the numeric
code, a space, and the canonical reason (or a fixed placeholder). -/
def statusDisplay (status : Nat) : String :=
  toString status ++ " " ++
    ((canonicalReason status).getD ("<unknown status code>"))

namespace HttpTransport

/-- `HttpTransport::post_json`, from receipt of the wire response: a
non-success status becomes `SerperError::api_error("HTTP {status} -
{reason or Unknown error}")`, a success status passes the response
through. -/
def post_json (response : RawResponse) : Except SerperError RawResponse :=
  if !(statusIsSuccess response.status) then
    .error (SerperError.api_error
      (("HTTP " ++ statusDisplay response.status ++ " - "
        ++ ((canonicalReason response.status).getD ("Unknown error")))))
  else
    .ok response

end HttpTransport

/-! ## High-level client (src/http/client.rs)

The client owns a transport; in the model the transport round trip is
supplied as data: `postResult` is the outcome of
`transport.post_json(url, api_key, query)` and `parseJson` is
`transport.parse_json`. -/

namespace SerperHttpClient

/-- `SerperHttpClient::search`: validate the query, perform the POST,
parse the body, then run the structural response validation. -/
def search (query : SearchQuery)
    (postResult : Except SerperError RawResponse)
    (parseJson : RawResponse → Except SerperError SearchResponse) :
    Except SerperError SearchResponse := do
  query.validate
  let response ← postResult
  let search_response ← parseJson response
  ResponseParser.validate_response search_response
  .ok search_response

/-- `SerperHttpClient::search_multiple`: the sequential loop, its
per-query round trip abstracted as `searchFn` (the outcome of
`self.search(query)`); the first error aborts the loop. -/
def search_multiple (searchFn : SearchQuery → Except SerperError SearchResponse) :
    List SearchQuery → Except SerperError (List SearchResponse)
  | [] => .ok []
  | query :: rest => do
    let result ← searchFn query
    let results ← search_multiple searchFn rest
    .ok (result :: results)

/-- The awaiting loop of `search_concurrent` (`for handle in handles`):
walks the join handles in input order, pushing each success and
returning at the first error via `?`. The first component counts how
many handles were actually awaited before the loop finished. -/
def awaitHandles : List (Except SerperError SearchResponse) →
    Nat × Except SerperError (List SearchResponse)
  | [] => (0, .ok [])
  | handle :: rest =>
    match handle with
    | .error e => (1, .error e)
    | .ok result =>
      let t := awaitHandles rest
      (t.1 + 1, match t.2 with
        | .error e => .error e
        | .ok results => .ok (result :: results))

/-- `SerperHttpClient::search_concurrent`: one task is spawned per
query on a fresh clone of the client, gated by a counting semaphore of
`max_concurrent` permits; each task's eventual outcome is `searchFn`
of its query (tasks run to completion independently, so given the
outcomes the collected value does not depend on the permit bound).
The handles are then awaited in input order by `awaitHandles`; the
first component reports how many handles the loop awaited. -/
def search_concurrent (searchFn : SearchQuery → Except SerperError SearchResponse)
    (queries : List SearchQuery) (_max_concurrent : Nat) :
    Nat × Except SerperError (List SearchResponse) :=
  awaitHandles (queries.map searchFn)

end SerperHttpClient

/-! ## Configuration (src/config/mod.rs) -/

/-- The crate version interpolated into the default user agent by the
build environment; its exact value is irrelevant to every claim. -/
def cargoPkgVersion : String := "0.1.0"

/-- `SdkConfig`; `Duration` is modelled by its whole seconds
(`Duration::from_secs` is the only constructor used), the header map
by an association list. -/
structure SdkConfig where
  api_key : String
  base_url : String
  timeout_secs : Nat
  max_concurrent_requests : Nat
  default_headers : List (String × String)
  user_agent : String
  enable_logging : Bool

namespace SdkConfig

/-- `SdkConfig::new`: the hardcoded defaults. -/
def new (api_key : String) : SdkConfig :=
  { api_key := api_key,
    base_url := ("https://google.serper.dev"),
    timeout_secs := 30,
    max_concurrent_requests := 5,
    default_headers := [(("Content-Type" : String), ("application/json" : String))],
    user_agent := ("serper-sdk/" ++ cargoPkgVersion),
    enable_logging := false }

/-- The `if let Ok(base_url) = std::env::var("SERPER_BASE_URL")`
statement of `from_env`. -/
def applyEnvBaseUrl (env : String → Option String) (config : SdkConfig) :
    SdkConfig :=
  match env ("SERPER_BASE_URL") with
  | some base_url => { config with base_url := base_url }
  | none => config

/-- The `SERPER_TIMEOUT_SECS` statement of `from_env`: the override
applies only when the variable is present and parses as an unsigned
integer. -/
def applyEnvTimeout (env : String → Option String) (config : SdkConfig) :
    SdkConfig :=
  match (env ("SERPER_TIMEOUT_SECS")).bind parseRustU64 with
  | some timeout_secs => { config with timeout_secs := timeout_secs }
  | none => config

/-- The `SERPER_MAX_CONCURRENT` statement of `from_env`: same
present-and-parses guard. -/
def applyEnvMaxConcurrent (env : String → Option String) (config : SdkConfig) :
    SdkConfig :=
  match (env ("SERPER_MAX_CONCURRENT")).bind parseRustU64 with
  | some max_concurrent =>
    { config with max_concurrent_requests := max_concurrent }
  | none => config

/-- The `SERPER_USER_AGENT` statement of `from_env`. -/
def applyEnvUserAgent (env : String → Option String) (config : SdkConfig) :
    SdkConfig :=
  match env ("SERPER_USER_AGENT") with
  | some user_agent => { config with user_agent := user_agent }
  | none => config

/-- The `SERPER_ENABLE_LOGGING` statement of `from_env`: the flag
becomes the result of the case-insensitive comparison with "true". -/
def applyEnvLogging (env : String → Option String) (config : SdkConfig) :
    SdkConfig :=
  match env ("SERPER_ENABLE_LOGGING") with
  | some enable_logging_str =>
    { config with
        enable_logging := rustToLowercase enable_logging_str == ("true") }
  | none => config

/-- `SdkConfig::from_env`; the process environment is supplied as a
partial map from variable name to value. A missing API key is the only
error; the optional-variable statements then run in source order. -/
def from_env (env : String → Option String) : Except SerperError SdkConfig :=
  match env ("SERPER_API_KEY") with
  | none =>
    .error (SerperError.config_error
      ("SERPER_API_KEY environment variable is required"))
  | some api_key =>
    .ok (applyEnvLogging env (applyEnvUserAgent env (applyEnvMaxConcurrent env
      (applyEnvTimeout env (applyEnvBaseUrl env (SdkConfig.new api_key))))))

end SdkConfig

/-! ## Claims -/

/-- C2: for every `SearchQuery`, `validate()` returns `Ok` if and only
if the query string is non-empty after trimming, `page` (when present)
is not 0, and `num` (when present) lies in `[1,100]`; otherwise it
returns a validation error. -/
theorem validate_ok_iff (q : SearchQuery) :
    (q.validate = .ok () ↔
      ((rustTrim q.q).isEmpty = false ∧ (∀ p ∈ q.page, p ≠ 0) ∧
        (∀ n ∈ q.num, 1 ≤ n ∧ n ≤ 100)))
    ∧ ((q.validate).isOk = false →
        ∃ msg, q.validate = .error (SerperError.Validation msg)) := by
  obtain ⟨s, loc, gl, hl, pg, nm⟩ := q
  constructor
  · cases pg <;> cases nm <;>
      unfold SearchQuery.validate <;>
      split_ifs with h1 h2 h3 <;>
      simp_all <;> omega
  · intro hne
    unfold SearchQuery.validate at hne ⊢
    split_ifs at hne ⊢ <;>
      first
        | exact ⟨_, rfl⟩
        | simp_all [Except.isOk, Except.toBool]

/-- C2 witness: a concrete query with page 2 and num 10 validates, and
a concrete query with num 101 fails with a validation error. -/
theorem validate_ok_iff_witness :
    ({ q := ("rust"), location := none, gl := none, hl := none,
       page := some 2, num := some 10 } : SearchQuery).validate = .ok () ∧
    ∃ msg,
      ({ q := ("rust"), location := none, gl := none, hl := none,
         page := none, num := some 101 } : SearchQuery).validate
        = .error (SerperError.Validation msg) := by
  constructor
  · exact (validate_ok_iff _).1.mpr (by refine ⟨by decide, ?_, ?_⟩ <;> simp)
  · exact (validate_ok_iff _).2 (by decide)

/-- C3: for every string that is non-empty after trimming,
`SearchQuery::new` succeeds and stores the string exactly (untrimmed),
with all optional fields unset; for every empty or whitespace-only
string it fails with a validation error. -/
theorem new_stores_untrimmed (s : String) :
    ((rustTrim s).isEmpty = false →
      SearchQuery.new s
        = .ok { q := s, location := none, gl := none, hl := none,
                page := none, num := none })
    ∧ ((rustTrim s).isEmpty = true →
      SearchQuery.new s
        = .error (SerperError.Validation ("Query string cannot be empty"))) := by
  constructor <;> intro h <;>
    simp [SearchQuery.new, h, SerperError.validation_error]

/-- C3 witness: `new` keeps the surrounding whitespace of
`"  hello  "` in the stored query, and fails on `" "`. -/
theorem new_stores_untrimmed_witness :
    SearchQuery.new ("  hello  ")
      = .ok { q := ("  hello  "), location := none, gl := none,
              hl := none, page := none, num := none } ∧
    SearchQuery.new (" ")
      = .error (SerperError.Validation ("Query string cannot be empty")) :=
  ⟨(new_stores_untrimmed ("  hello  ")).1 (by decide),
   (new_stores_untrimmed (" ")).2 (by decide)⟩

/-- C9: deserializing the empty JSON object into a `SearchResponse`
yields a response with every field absent, for which `has_results()`
is false and `organic_count()` is 0. -/
theorem deserialize_empty_object :
    deserializeSearchResponse (Json.obj [])
      = .ok { search_metadata := none, organic := none, answer_box := none,
              knowledge_graph := none, related_questions := none,
              shopping := none, news := none } ∧
    ({ search_metadata := none, organic := none, answer_box := none,
       knowledge_graph := none, related_questions := none,
       shopping := none, news := none } : SearchResponse).has_results = false ∧
    ({ search_metadata := none, organic := none, answer_box := none,
       knowledge_graph := none, related_questions := none,
       shopping := none, news := none } : SearchResponse).organic_count = 0 :=
  ⟨rfl, rfl, rfl⟩

/-- C10: `has_results()` does not consult `related_questions`: whenever
the organic, shopping and news sections are absent or empty and the
answer box and knowledge graph are absent, `has_results()` is false,
whatever `related_questions` holds. -/
theorem has_results_ignores_related_questions (r : SearchResponse)
    (h1 : ∀ l ∈ r.organic, l = ([] : List OrganicResult))
    (h2 : r.answer_box = none)
    (h3 : r.knowledge_graph = none)
    (h4 : ∀ l ∈ r.shopping, l = ([] : List ShoppingResult))
    (h5 : ∀ l ∈ r.news, l = ([] : List NewsResult)) :
    r.has_results = false := by
  obtain ⟨sm, org, ab, kg, rq, sh, nw⟩ := r
  simp only at h1 h2 h3 h4 h5
  subst h2 h3
  cases org <;> cases sh <;> cases nw <;>
    simp_all [SearchResponse.has_results]

/-- C10 witness: a response whose only populated section is one
related question has no results. -/
theorem has_results_ignores_related_questions_witness :
    ({ search_metadata := none, organic := some [], answer_box := none,
       knowledge_graph := none,
       related_questions := some [{ question := ("why?"), snippet := none,
                                    title := none, link := none }],
       shopping := none, news := none } : SearchResponse).has_results
      = false := by
  refine has_results_ignores_related_questions _ ?_ rfl rfl ?_ ?_ <;> simp

/-- C4: serializing a `SearchQuery` omits every optional field that is
`None` (no key is emitted, in particular never a null), and a query
with all fields set serializes with exactly the keys
`q, location, gl, hl, page, num`. -/
theorem serialize_query_spec (sq : SearchQuery) :
    (∀ kv ∈ serializeSearchQuery sq, kv.2 ≠ Json.null)
    ∧ (sq.location = none →
        ("location") ∉ (serializeSearchQuery sq).map Prod.fst)
    ∧ (sq.gl = none → ("gl") ∉ (serializeSearchQuery sq).map Prod.fst)
    ∧ (sq.hl = none → ("hl") ∉ (serializeSearchQuery sq).map Prod.fst)
    ∧ (sq.page = none → ("page") ∉ (serializeSearchQuery sq).map Prod.fst)
    ∧ (sq.num = none → ("num") ∉ (serializeSearchQuery sq).map Prod.fst)
    ∧ (sq.location.isSome → sq.gl.isSome → sq.hl.isSome →
        sq.page.isSome → sq.num.isSome →
        (serializeSearchQuery sq).map Prod.fst
          = [("q"), ("location"), ("gl"), ("hl"), ("page"), ("num")]) := by
  obtain ⟨s, loc, gl, hl, pg, nm⟩ := sq
  cases loc <;> cases gl <;> cases hl <;> cases pg <;> cases nm <;>
    simp [serializeSearchQuery]

/-- C4 witness: instantiation at a fully-populated query and at a
minimal query. -/
theorem serialize_query_spec_witness :
    ((serializeSearchQuery
        { q := ("rust"), location := some ("Paris"), gl := some ("fr"),
          hl := some ("en"), page := some 1, num := some 10 }).map Prod.fst
      = [("q"), ("location"), ("gl"), ("hl"), ("page"), ("num")]) ∧
    (("location") ∉ (serializeSearchQuery
        { q := ("rust"), location := none, gl := none, hl := none,
          page := none, num := none }).map Prod.fst) := by
  constructor
  · exact (serialize_query_spec _).2.2.2.2.2.2 (by decide) (by decide)
      (by decide) (by decide) (by decide)
  · exact (serialize_query_spec _).2.1 (by decide)

/-- The organic-result loop accepts a list exactly when every entry
has a non-empty title and a non-empty link (the start index only
affects messages). -/
theorem validateOrganicFrom_ok_iff (idx : Nat) (os : List OrganicResult) :
    validateOrganicFrom idx os = .ok () ↔
      ∀ o ∈ os, o.title.isEmpty = false ∧ o.link.isEmpty = false := by
  induction os generalizing idx with
  | nil => simp [validateOrganicFrom]
  | cons o rest ih =>
    unfold validateOrganicFrom
    split_ifs with ht hl <;> simp_all [SerperError.validation_error]

/-- Every rejection of the organic-result loop is a validation error. -/
theorem validateOrganicFrom_error_validation (idx : Nat)
    (os : List OrganicResult) (e : SerperError) :
    validateOrganicFrom idx os = .error e →
      ∃ m, e = SerperError.Validation m := by
  induction os generalizing idx with
  | nil => intro h; exact absurd h (by simp [validateOrganicFrom])
  | cons o rest ih =>
    unfold validateOrganicFrom
    split_ifs <;> intro h
    · exact ⟨_, (Except.error.inj h).symm⟩
    · exact ⟨_, (Except.error.inj h).symm⟩
    · exact ih _ h

/-- Every rejection of `validate_response` is a validation error. -/
theorem validate_response_error_validation (r : SearchResponse)
    (e : SerperError) :
    ResponseParser.validate_response r = .error e →
      ∃ m, e = SerperError.Validation m := by
  unfold ResponseParser.validate_response
  rcases r with ⟨sm, org, ab, kg, rq, sh, nw⟩
  cases sm <;> cases org <;> simp only <;>
    first
      | (intro h; exact absurd h (by simp))
      | (exact validateOrganicFrom_error_validation 0 _ e)
      | (split_ifs with hid <;> intro h
         · exact ⟨_, (Except.error.inj h).symm⟩
         · first
             | exact absurd h (by simp)
             | exact validateOrganicFrom_error_validation 0 _ e h)

/-- C5: structural validation of a parsed response fails (with a
validation error) exactly when some organic result has an empty title
or link, or the metadata id is empty; and `search` surfaces such a
validation error even when the transport and JSON parsing succeeded. -/
theorem validate_response_spec (r : SearchResponse) :
    (ResponseParser.validate_response r = .ok () ↔
      ((∀ m ∈ r.search_metadata, m.id.isEmpty = false) ∧
       (∀ os ∈ r.organic, ∀ o ∈ os,
         o.title.isEmpty = false ∧ o.link.isEmpty = false)))
    ∧ (∀ (q : SearchQuery) (raw : RawResponse),
        q.validate = .ok () →
        (ResponseParser.validate_response r).isOk = false →
        ∃ msg, SerperHttpClient.search q (.ok raw) (fun _ => .ok r)
          = .error (SerperError.Validation msg)) := by
  constructor
  · obtain ⟨sm, org, ab, kg, rq, sh, nw⟩ := r
    cases sm <;> cases org <;>
      simp [ResponseParser.validate_response, validateOrganicFrom_ok_iff] <;>
      split_ifs with hid <;>
      simp_all [validateOrganicFrom_ok_iff]
  · intro q raw hq hbad
    cases hv : ResponseParser.validate_response r with
    | ok u => rw [hv] at hbad; exact absurd hbad (by simp [Except.isOk, Except.toBool])
    | error e =>
      obtain ⟨m, hm⟩ := validate_response_error_validation r e hv
      subst hm
      refine ⟨m, ?_⟩
      simp [SerperHttpClient.search, hq, hv, Bind.bind, Except.bind]

/-- C5 witness: a successfully parsed response whose single organic
result has an empty title makes `search` fail with a validation
error. -/
theorem validate_response_spec_witness :
    ∃ msg,
      SerperHttpClient.search
        { q := ("rust"), location := none, gl := none, hl := none,
          page := none, num := none }
        (.ok { status := 200, body := Json.obj [] })
        (fun _ => .ok
          { search_metadata := none,
            organic := some [{ title := (""), link := ("https://example.com"),
                               snippet := none, position := 1, extra := [] }],
            answer_box := none, knowledge_graph := none,
            related_questions := none, shopping := none, news := none })
      = .error (SerperError.Validation msg) :=
  (validate_response_spec _).2
    { q := ("rust"), location := none, gl := none, hl := none,
      page := none, num := none }
    { status := 200, body := Json.obj [] }
    (by rfl) (by rfl)

/-- C6: `search_multiple` is all-or-nothing over the queries in input
order: a success returns exactly the per-query responses in input
order, and an error is the first per-query error — every query before
the failing one succeeded, and no partial results escape. -/
theorem search_multiple_spec
    (f : SearchQuery → Except SerperError SearchResponse)
    (queries : List SearchQuery) :
    (∀ rs, SerperHttpClient.search_multiple f queries = .ok rs →
        queries.map f = rs.map Except.ok)
    ∧ (∀ e, SerperHttpClient.search_multiple f queries = .error e →
        ∃ pre q post, queries = pre ++ q :: post ∧
          (∀ p ∈ pre, (f p).isOk = true) ∧ f q = .error e) := by
  induction queries with
  | nil =>
    constructor
    · intro rs h
      cases rs with
      | nil => simp
      | cons r rest => exact absurd h (by simp [SerperHttpClient.search_multiple])
    · intro e h
      exact absurd h (by simp [SerperHttpClient.search_multiple])
  | cons q rest ih =>
    constructor
    · intro rs h
      unfold SerperHttpClient.search_multiple at h
      cases hf : f q with
      | error e => simp [hf, Bind.bind, Except.bind] at h
      | ok r =>
        cases hr : SerperHttpClient.search_multiple f rest with
        | error e => simp [hf, hr, Bind.bind, Except.bind] at h
        | ok rs' =>
          simp only [hf, hr, Bind.bind, Except.bind] at h
          cases h with
          | refl =>
            simp only [List.map_cons, hf]
            exact congrArg (List.cons (Except.ok r)) (ih.1 rs' hr)
    · intro e h
      unfold SerperHttpClient.search_multiple at h
      cases hf : f q with
      | error e' =>
        simp only [hf, Bind.bind, Except.bind] at h
        cases h with
        | refl => exact ⟨[], q, rest, by simp, by simp, hf⟩
      | ok r =>
        cases hr : SerperHttpClient.search_multiple f rest with
        | error e' =>
          simp only [hf, hr, Bind.bind, Except.bind] at h
          cases h with
          | refl =>
            obtain ⟨pre, q', post, hqs, hpre, hq'⟩ := ih.2 _ hr
            refine ⟨q :: pre, q', post, by simp [hqs], ?_, hq'⟩
            intro p hp
            rcases List.mem_cons.mp hp with hp | hp
            · subst hp; simp [hf, Except.isOk, Except.toBool]
            · exact hpre p hp
        | ok rs' => simp [hf, hr, Bind.bind, Except.bind] at h

/-- C6 witness: with a transport where only the second of two queries
fails, `search_multiple` returns exactly that error. -/
theorem search_multiple_spec_witness :
    ∃ pre q post,
      ([{ q := ("a"), location := none, gl := none, hl := none,
          page := none, num := none },
        { q := ("b"), location := none, gl := none, hl := none,
          page := none, num := none }] : List SearchQuery)
        = pre ++ q :: post ∧
      (∀ p ∈ pre,
        ((fun (qq : SearchQuery) =>
          if qq.q == ("b") then
            (.error (SerperError.api_error ("boom")) :
              Except SerperError SearchResponse)
          else .ok SearchResponse.new) p).isOk = true) ∧
      (fun (qq : SearchQuery) =>
          if qq.q == ("b") then
            (.error (SerperError.api_error ("boom")) :
              Except SerperError SearchResponse)
          else .ok SearchResponse.new) q
        = .error (SerperError.api_error ("boom")) :=
  (search_multiple_spec _ _).2 (SerperError.api_error ("boom")) (by rfl)

/-- C7: every non-success HTTP status makes `post_json` return an API
error whose message carries the numeric status and the canonical
reason phrase (or "Unknown error" when absent); in particular `search`
on a 500 response returns an API error whose message contains
"500". -/
theorem post_json_api_error :
    (∀ resp : RawResponse, statusIsSuccess resp.status = false →
      ∃ msg, HttpTransport.post_json resp = .error (SerperError.Api msg) ∧
        (∃ a b, msg = a ++ toString resp.status ++ b) ∧
        (∃ a b,
          msg = a ++ ((canonicalReason resp.status).getD ("Unknown error")) ++ b))
    ∧ (∃ msg,
        SerperHttpClient.search
          { q := ("rust"), location := none, gl := none, hl := none,
            page := none, num := none }
          (HttpTransport.post_json { status := 500, body := Json.obj [] })
          (fun _ => .ok SearchResponse.new)
          = .error (SerperError.Api msg) ∧
        ∃ a b, msg = a ++ ("500") ++ b) := by
  constructor
  · intro resp h
    refine ⟨("HTTP " ++ statusDisplay resp.status ++ " - "
      ++ ((canonicalReason resp.status).getD ("Unknown error"))), ?_, ?_, ?_⟩
    · simp [HttpTransport.post_json, h, SerperError.api_error]
    · refine ⟨("HTTP "), (" "
        ++ ((canonicalReason resp.status).getD ("<unknown status code>")) ++ " - "
        ++ ((canonicalReason resp.status).getD ("Unknown error"))), ?_⟩
      simp [statusDisplay, String.append_assoc]
    · exact ⟨("HTTP " ++ statusDisplay resp.status ++ " - "), (""), by simp⟩
  · refine ⟨("HTTP 500 Internal Server Error - Internal Server Error"), by rfl,
      ("HTTP "), (" Internal Server Error - Internal Server Error"), by rfl⟩

/-- C7 witness: instantiation of the universal part at a 404 wire
response. -/
theorem post_json_api_error_witness :
    statusIsSuccess 404 = false ∧
    ∃ msg,
      HttpTransport.post_json { status := 404, body := Json.obj [] }
        = .error (SerperError.Api msg) ∧
      (∃ a b, msg = a ++ toString (404 : Nat) ++ b) ∧
      (∃ a b, msg = a ++ ((canonicalReason 404).getD ("Unknown error")) ++ b) :=
  ⟨by decide, post_json_api_error.1 { status := 404, body := Json.obj [] } (by decide)⟩


/-- The base-URL statement touches no numeric or logging field. -/
theorem applyEnvBaseUrl_fields (env : String → Option String) (c : SdkConfig) :
    (SdkConfig.applyEnvBaseUrl env c).timeout_secs = c.timeout_secs ∧
    (SdkConfig.applyEnvBaseUrl env c).max_concurrent_requests
      = c.max_concurrent_requests ∧
    (SdkConfig.applyEnvBaseUrl env c).enable_logging = c.enable_logging := by
  unfold SdkConfig.applyEnvBaseUrl
  cases env ("SERPER_BASE_URL") <;> exact ⟨rfl, rfl, rfl⟩

/-- The timeout statement touches neither the concurrency ceiling nor
the logging flag, and keeps the timeout itself when the variable does
not parse. -/
theorem applyEnvTimeout_fields (env : String → Option String) (c : SdkConfig) :
    (SdkConfig.applyEnvTimeout env c).max_concurrent_requests
      = c.max_concurrent_requests ∧
    (SdkConfig.applyEnvTimeout env c).enable_logging = c.enable_logging ∧
    (∀ s, env ("SERPER_TIMEOUT_SECS") = some s → parseRustU64 s = none →
      (SdkConfig.applyEnvTimeout env c).timeout_secs = c.timeout_secs) ∧
    (env ("SERPER_TIMEOUT_SECS") = none →
      (SdkConfig.applyEnvTimeout env c).timeout_secs = c.timeout_secs) := by
  unfold SdkConfig.applyEnvTimeout
  refine ⟨?_, ?_, ?_, ?_⟩
  · cases (env ("SERPER_TIMEOUT_SECS")).bind parseRustU64 <;> rfl
  · cases (env ("SERPER_TIMEOUT_SECS")).bind parseRustU64 <;> rfl
  · intro s hs hp; rw [hs]; simp [Option.bind, hp]
  · intro hs; rw [hs]; rfl

/-- The max-concurrent statement touches neither the timeout nor the
logging flag, and keeps the ceiling when the variable does not
parse. -/
theorem applyEnvMaxConcurrent_fields (env : String → Option String)
    (c : SdkConfig) :
    (SdkConfig.applyEnvMaxConcurrent env c).timeout_secs = c.timeout_secs ∧
    (SdkConfig.applyEnvMaxConcurrent env c).enable_logging = c.enable_logging ∧
    (∀ s, env ("SERPER_MAX_CONCURRENT") = some s → parseRustU64 s = none →
      (SdkConfig.applyEnvMaxConcurrent env c).max_concurrent_requests
        = c.max_concurrent_requests) ∧
    (env ("SERPER_MAX_CONCURRENT") = none →
      (SdkConfig.applyEnvMaxConcurrent env c).max_concurrent_requests
        = c.max_concurrent_requests) := by
  unfold SdkConfig.applyEnvMaxConcurrent
  refine ⟨?_, ?_, ?_, ?_⟩
  · cases (env ("SERPER_MAX_CONCURRENT")).bind parseRustU64 <;> rfl
  · cases (env ("SERPER_MAX_CONCURRENT")).bind parseRustU64 <;> rfl
  · intro s hs hp; rw [hs]; simp [Option.bind, hp]
  · intro hs; rw [hs]; rfl

/-- The user-agent statement touches no numeric or logging field. -/
theorem applyEnvUserAgent_fields (env : String → Option String) (c : SdkConfig) :
    (SdkConfig.applyEnvUserAgent env c).timeout_secs = c.timeout_secs ∧
    (SdkConfig.applyEnvUserAgent env c).max_concurrent_requests
      = c.max_concurrent_requests ∧
    (SdkConfig.applyEnvUserAgent env c).enable_logging = c.enable_logging := by
  unfold SdkConfig.applyEnvUserAgent
  cases env ("SERPER_USER_AGENT") <;> exact ⟨rfl, rfl, rfl⟩

/-- The logging statement touches neither numeric field, and starting
from a disabled flag the result is enabled exactly when the variable
is present and case-insensitively equals "true". -/
theorem applyEnvLogging_fields (env : String → Option String) (c : SdkConfig) :
    (SdkConfig.applyEnvLogging env c).timeout_secs = c.timeout_secs ∧
    (SdkConfig.applyEnvLogging env c).max_concurrent_requests
      = c.max_concurrent_requests ∧
    (c.enable_logging = false →
      ((SdkConfig.applyEnvLogging env c).enable_logging = true ↔
        ∃ s, env ("SERPER_ENABLE_LOGGING") = some s ∧
          rustToLowercase s = ("true"))) := by
  unfold SdkConfig.applyEnvLogging
  refine ⟨?_, ?_, ?_⟩
  · cases env ("SERPER_ENABLE_LOGGING") <;> rfl
  · cases env ("SERPER_ENABLE_LOGGING") <;> rfl
  · intro h
    cases hl : env ("SERPER_ENABLE_LOGGING") with
    | none => simp [h, hl]
    | some s => simp [hl]

/-- C8: `from_env` fails (and then with a configuration error naming
the API-key variable) exactly when the API-key variable is absent;
when the key is present, a malformed timeout or max-concurrent value
is silently ignored and the default kept, and the logging flag is true
exactly when the enable-logging variable case-insensitively equals
"true". -/
theorem from_env_spec (env : String → Option String) :
    ((∃ e, SdkConfig.from_env env = .error e) ↔
        env ("SERPER_API_KEY") = none)
    ∧ (env ("SERPER_API_KEY") = none →
        SdkConfig.from_env env = .error (SerperError.Config
          ("SERPER_API_KEY environment variable is required")))
    ∧ (∀ c, SdkConfig.from_env env = .ok c →
        (∀ s, env ("SERPER_TIMEOUT_SECS") = some s → parseRustU64 s = none →
          c.timeout_secs = 30)
        ∧ (∀ s, env ("SERPER_MAX_CONCURRENT") = some s → parseRustU64 s = none →
          c.max_concurrent_requests = 5)
        ∧ (c.enable_logging = true ↔
            ∃ s, env ("SERPER_ENABLE_LOGGING") = some s ∧
              rustToLowercase s = ("true"))) := by
  refine ⟨?_, ?_, ?_⟩
  · cases hk : env ("SERPER_API_KEY") with
    | none =>
      refine ⟨fun _ => rfl, fun _ => ?_⟩
      exact ⟨SerperError.Config ("SERPER_API_KEY environment variable is required"),
        by simp [SdkConfig.from_env, hk, SerperError.config_error]⟩
    | some k =>
      constructor
      · rintro ⟨e, he⟩
        simp [SdkConfig.from_env, hk] at he
      · intro h; exact absurd h (by simp)
  · intro hk
    simp [SdkConfig.from_env, hk, SerperError.config_error]
  · intro c hc
    cases hk : env ("SERPER_API_KEY") with
    | none => simp [SdkConfig.from_env, hk] at hc
    | some k =>
      simp only [SdkConfig.from_env, hk, Except.ok.injEq] at hc
      subst hc
      refine ⟨?_, ?_, ?_⟩
      · intro s hs hp
        rw [(applyEnvLogging_fields env _).1, (applyEnvUserAgent_fields env _).1,
          (applyEnvMaxConcurrent_fields env _).1,
          (applyEnvTimeout_fields env _).2.2.1 s hs hp,
          (applyEnvBaseUrl_fields env _).1]
        rfl
      · intro s hs hp
        rw [(applyEnvLogging_fields env _).2.1,
          (applyEnvUserAgent_fields env _).2.1,
          (applyEnvMaxConcurrent_fields env _).2.2.1 s hs hp,
          (applyEnvTimeout_fields env _).1,
          (applyEnvBaseUrl_fields env _).2.1]
        rfl
      · refine (applyEnvLogging_fields env _).2.2 ?_
        rw [(applyEnvUserAgent_fields env _).2.2,
          (applyEnvMaxConcurrent_fields env _).2.1,
          (applyEnvTimeout_fields env _).2.1,
          (applyEnvBaseUrl_fields env _).2.2]
        rfl

/-- C8 witness: with the key present, a malformed timeout value keeps
the 30-second default, and an uppercase "TRUE" enables logging. -/
theorem from_env_spec_witness :
    ∀ c, SdkConfig.from_env
        (fun k => if k == ("SERPER_API_KEY") then some ("key-123")
          else if k == ("SERPER_TIMEOUT_SECS") then some ("abc")
          else if k == ("SERPER_ENABLE_LOGGING") then some ("TRUE")
          else none) = .ok c →
      c.timeout_secs = 30 ∧ c.enable_logging = true := by
  intro c hc
  have h := (from_env_spec _).2.2 c hc
  exact ⟨h.1 ("abc") (by decide) (by decide),
    h.2.2.mpr ⟨("TRUE"), by decide, by decide⟩⟩

/-- The awaiting loop on an all-success handle list returns every
result in order and awaits every handle. -/
theorem awaitHandles_ok_spec (hs : List (Except SerperError SearchResponse))
    (rs : List SearchResponse) :
    (SerperHttpClient.awaitHandles hs).2 = .ok rs →
      hs = rs.map Except.ok ∧
      (SerperHttpClient.awaitHandles hs).1 = hs.length := by
  induction hs generalizing rs with
  | nil =>
    intro h
    obtain rfl := Except.ok.inj h
    exact ⟨rfl, rfl⟩
  | cons hd tl ih =>
    intro h
    cases hd with
    | error e => simp [SerperHttpClient.awaitHandles] at h
    | ok r =>
      simp only [SerperHttpClient.awaitHandles] at h ⊢
      cases ht : (SerperHttpClient.awaitHandles tl).2 with
      | error e => rw [ht] at h; simp at h
      | ok rs' =>
        rw [ht] at h
        simp only at h
        obtain rfl := Except.ok.inj h
        obtain ⟨h1, h2⟩ := ih rs' ht
        exact ⟨by simp [← h1], by simp [h2]⟩

/-- The awaiting loop hitting a failure returns the first failed
handle's error, after awaiting exactly the successful prefix plus the
failing handle. -/
theorem awaitHandles_error_spec (hs : List (Except SerperError SearchResponse))
    (e : SerperError) :
    (SerperHttpClient.awaitHandles hs).2 = .error e →
      ∃ (pre : List SearchResponse)
        (post : List (Except SerperError SearchResponse)),
        hs = pre.map Except.ok ++ .error e :: post ∧
        (SerperHttpClient.awaitHandles hs).1 = pre.length + 1 := by
  induction hs with
  | nil => intro h; simp [SerperHttpClient.awaitHandles] at h
  | cons hd tl ih =>
    intro h
    cases hd with
    | error e' =>
      simp only [SerperHttpClient.awaitHandles] at h ⊢
      obtain rfl := Except.error.inj h
      exact ⟨[], tl, by simp, rfl⟩
    | ok r =>
      simp only [SerperHttpClient.awaitHandles] at h ⊢
      cases ht : (SerperHttpClient.awaitHandles tl).2 with
      | ok rs' => rw [ht] at h; simp at h
      | error e2 =>
        rw [ht] at h
        simp only at h
        obtain rfl := Except.error.inj h
        obtain ⟨pre, post, htl, hcount⟩ := ih ht
        exact ⟨r :: pre, post, by simp [htl], by simp [hcount]⟩

/-- Splitting a mapped list along a decomposition of its image. -/
theorem list_map_split (f : α → β) (l : List α) (pre : List β) (b : β)
    (post : List β) :
    l.map f = pre ++ b :: post →
      ∃ l1 a l2, l = l1 ++ a :: l2 ∧ l1.map f = pre ∧ f a = b ∧
        l2.map f = post := by
  induction l generalizing pre with
  | nil => intro h; simp at h
  | cons x xs ih =>
    intro h
    cases pre with
    | nil =>
      simp only [List.map_cons, List.nil_append, List.cons.injEq] at h
      exact ⟨[], x, xs, by simp, by simp, h.1, h.2⟩
    | cons p ps =>
      simp only [List.map_cons, List.cons_append, List.cons.injEq] at h
      obtain ⟨hx, hrest⟩ := h
      obtain ⟨l1, a, l2, h1, h2, h3, h4⟩ := ih ps hrest
      exact ⟨x :: l1, a, l2, by simp [h1], by simp [hx, h2], h3, h4⟩

/-- C1 counterexample: with two dispatched tasks of which the first
fails and the second succeeds, the awaiting loop of
`search_concurrent` awaits only one of the two handles before
reporting the error — it does not await every dispatched task. -/
theorem search_concurrent_cex :
    (SerperHttpClient.search_concurrent
        (fun q => if q.q == ("a")
          then (.error (SerperError.api_error ("task failed")) :
            Except SerperError SearchResponse)
          else .ok SearchResponse.new)
        [{ q := ("a"), location := none, gl := none, hl := none,
           page := none, num := none },
         { q := ("b"), location := none, gl := none, hl := none,
           page := none, num := none }] 2).1 = 1 ∧
    ¬((SerperHttpClient.search_concurrent
        (fun q => if q.q == ("a")
          then (.error (SerperError.api_error ("task failed")) :
            Except SerperError SearchResponse)
          else .ok SearchResponse.new)
        [{ q := ("a"), location := none, gl := none, hl := none,
           page := none, num := none },
         { q := ("b"), location := none, gl := none, hl := none,
           page := none, num := none }] 2).1 = 2) := by
  constructor
  · rfl
  · decide

/-- C1 (amended): the awaiting loop of `search_concurrent` walks the
handles in input order and returns at the first per-task error, having
awaited only the successful prefix plus the failing handle (in-flight
siblings are not awaited, though they are not cancelled either); the
aggregate is an error whenever at least one task fails, and all
responses in input order when none fail — all independently of the
permit bound. -/
theorem search_concurrent_spec
    (f : SearchQuery → Except SerperError SearchResponse)
    (queries : List SearchQuery) (k : Nat) :
    (∀ rs, (SerperHttpClient.search_concurrent f queries k).2 = .ok rs →
        queries.map f = rs.map Except.ok ∧
        (SerperHttpClient.search_concurrent f queries k).1 = queries.length)
    ∧ ((∃ q ∈ queries, ∃ e, f q = .error e) →
        ∃ e, (SerperHttpClient.search_concurrent f queries k).2 = .error e)
    ∧ (∀ e, (SerperHttpClient.search_concurrent f queries k).2 = .error e →
        ∃ pre q post, queries = pre ++ q :: post ∧
          (∀ p ∈ pre, (f p).isOk = true) ∧ f q = .error e ∧
          (SerperHttpClient.search_concurrent f queries k).1
            = pre.length + 1) := by
  refine ⟨?_, ?_, ?_⟩
  · intro rs h
    unfold SerperHttpClient.search_concurrent at h ⊢
    obtain ⟨h1, h2⟩ := awaitHandles_ok_spec (queries.map f) rs h
    exact ⟨h1, by simpa using h2⟩
  · rintro ⟨q, hq, e, hfe⟩
    unfold SerperHttpClient.search_concurrent
    cases hres : (SerperHttpClient.awaitHandles (queries.map f)).2 with
    | error e' => exact ⟨e', rfl⟩
    | ok rs =>
      obtain ⟨h1, _⟩ := awaitHandles_ok_spec (queries.map f) rs hres
      have hmem : f q ∈ List.map Except.ok rs :=
        h1 ▸ List.mem_map_of_mem f hq
      obtain ⟨r, _, hr⟩ := List.mem_map.mp hmem
      rw [hfe] at hr
      exact absurd hr (by simp)
  · intro e h
    unfold SerperHttpClient.search_concurrent at h ⊢
    obtain ⟨pre', post', hmap, hcount⟩ :=
      awaitHandles_error_spec (queries.map f) e h
    obtain ⟨l1, q, l2, hq, hpre, hfq, hpost⟩ :=
      list_map_split f queries (pre'.map Except.ok) (.error e) post' hmap
    refine ⟨l1, q, l2, hq, ?_, hfq, ?_⟩
    · intro p hp
      have : f p ∈ List.map Except.ok pre' :=
        hpre ▸ List.mem_map_of_mem f hp
      obtain ⟨r, _, hr⟩ := List.mem_map.mp this
      rw [← hr]
      rfl
    · have hlen : l1.length = pre'.length := by
        simpa using congrArg List.length hpre
      rw [hcount, hlen]

/-- C1 amended-claim witness: with two queries of which the first task
fails, the error surfaces after awaiting exactly one handle. -/
theorem search_concurrent_spec_witness :
    ∃ pre q post,
      ([{ q := ("a"), location := none, gl := none, hl := none,
          page := none, num := none },
        { q := ("b"), location := none, gl := none, hl := none,
          page := none, num := none }] : List SearchQuery)
        = pre ++ q :: post ∧
      (∀ p ∈ pre,
        ((fun (qq : SearchQuery) => if qq.q == ("a")
          then (.error (SerperError.api_error ("task failed")) :
            Except SerperError SearchResponse)
          else .ok SearchResponse.new) p).isOk = true) ∧
      (fun (qq : SearchQuery) => if qq.q == ("a")
          then (.error (SerperError.api_error ("task failed")) :
            Except SerperError SearchResponse)
          else .ok SearchResponse.new) q
        = .error (SerperError.api_error ("task failed")) ∧
      (SerperHttpClient.search_concurrent
        (fun (qq : SearchQuery) => if qq.q == ("a")
          then (.error (SerperError.api_error ("task failed")) :
            Except SerperError SearchResponse)
          else .ok SearchResponse.new)
        [{ q := ("a"), location := none, gl := none, hl := none,
           page := none, num := none },
         { q := ("b"), location := none, gl := none, hl := none,
           page := none, num := none }] 2).1 = pre.length + 1 :=
  (search_concurrent_spec _ _ 2).2.2 (SerperError.api_error ("task failed"))
    (by rfl)
